import Mathlib

/-!
Verification development for the Chicago crash-data pipeline
(`src/services/sync_service.py`, `src/services/database_service.py`,
`src/services/job_service.py`, `src/etl/soda_client.py`,
`src/validators/data_sanitizer.py`, `src/api/routers/sync.py`,
`src/api/dependencies.py`, `src/utils/config.py`, `src/models/jobs.py`).

Python dict-shaped records are embedded as association lists from field
names to a `Val` type covering the Python values the pipeline moves
around (strings, ints, floats as exact rationals, datetimes, geometry
points, and `None`).  Database tables are embedded as lists of rows,
rows being the same association lists (SQLAlchemy entities are
attribute bags; `getattr(obj, f, None)` is association-list lookup with
a `null` default).  Stateful operations are explicit state passing;
fallible operations return `Except`.
-/

namespace ChicagoCrashes

/-- Calendar datetime as produced by Python `datetime`. -/
structure PyDateTime where
  year : Nat
  month : Nat
  day : Nat
  hour : Nat
  minute : Nat
  second : Nat
  micro : Nat
  deriving DecidableEq, Repr

/-- A Python value as it occurs in the pipeline's records and rows.
`f` carries floats as exact rationals (the pipeline only parses and
compares them, never does lossy arithmetic); `pt` is a PostGIS point
geometry (`WKTElement`); `null` is Python `None`. -/
inductive Val where
  | null
  | s (x : String)
  | i (x : Int)
  | f (x : Rat)
  | dt (x : PyDateTime)
  | pt (lon lat : Rat)
  deriving DecidableEq, Repr

/-- Python truthiness (`bool(v)`) for the values above: `None`, empty
string, and numeric zero are falsy. -/
def Val.truthy : Val → Bool
  | .null => false
  | .s x => x ≠ ""
  | .i n => n ≠ 0
  | .f q => q ≠ 0
  | .dt _ => true
  | .pt _ _ => true

/-- Python `==` on `Val`: same-type structural equality plus the
numeric cross-type rule `1 == 1.0`. -/
def pyEq : Val → Val → Bool
  | .null, .null => true
  | .s a, .s b => a = b
  | .i a, .i b => a = b
  | .f a, .f b => a = b
  | .i a, .f b => (a : Rat) = b
  | .f a, .i b => a = (b : Rat)
  | .dt a, .dt b => a = b
  | .pt a b, .pt c d => a = c ∧ b = d
  | _, _ => false

theorem pyEq_refl (v : Val) : pyEq v v = true := by
  cases v <;> simp [pyEq]

/-- A record (Python dict) keyed by field names, in insertion order. -/
abbrev Rec := List (String × Val)

/-- Python `record.get(k)` / `getattr(row, k, None)`: first binding of
`k`, defaulting to `None`. -/
def Rec.get : Rec → String → Val
  | [], _ => .null
  | (k', v) :: rest, k => if k' = k then v else Rec.get rest k

/-- Python `k in record` (key membership, regardless of the value). -/
def Rec.hasKey (r : Rec) (k : String) : Bool :=
  r.any (fun p => p.1 = k)

/-- Attribute assignment `row.k = v`: replace the first binding of `k`,
appending when absent. -/
def Rec.set : Rec → String → Val → Rec
  | [], k, v => [(k, v)]
  | (k', v') :: rest, k, v =>
      if k' = k then (k, v) :: rest else (k', v') :: Rec.set rest k v

/-- Numeric value of a decimal digit string, `none` if any char is not
a digit or the string is empty. -/
def decDigits? (s : List Char) : Option Nat :=
  match s with
  | [] => none
  | _ =>
    s.foldl
      (fun acc c =>
        match acc with
        | none => none
        | some n => if c.isDigit then some (n * 10 + (c.toNat - 48)) else none)
      (some 0)

/-- Model of Python `float(str)` on an already-stripped string:
optional sign, decimal digits with optional fraction, optional
exponent.  (`inf`/`nan` spellings and `_` separators are not modelled;
no claim exercises them.) -/
def parse_float_chars (cs : List Char) : Option Rat :=
  let (sign, cs) :=
    match cs with
    | '+' :: rest => ((1 : Int), rest)
    | '-' :: rest => ((-1 : Int), rest)
    | _ => ((1 : Int), cs)
  let (mant, expPart) :=
    match cs.span (fun c => c ≠ 'e' ∧ c ≠ 'E') with
    | (m, []) => (m, none)
    | (m, _ :: e) => (m, some e)
  let (intPart, fracPart) :=
    match mant.span (fun c => c ≠ '.') with
    | (ip, []) => (ip, ([] : List Char))
    | (ip, _ :: fp) => (ip, fp)
  let intVal? : Option Nat :=
    match intPart, fracPart with
    | [], [] => none
    | [], _ => some 0
    | ip, _ => decDigits? ip
  let fracVal? : Option Nat :=
    match fracPart with
    | [] => some 0
    | fp => decDigits? fp
  let expVal? : Option Int :=
    match expPart with
    | none => some 0
    | some ('+' :: e) => (decDigits? e).map (Int.ofNat)
    | some ('-' :: e) => (decDigits? e).map (fun n => -(n : Int))
    | some e => (decDigits? e).map (Int.ofNat)
  match intVal?, fracVal?, expVal? with
  | some ip, some fp, some ex =>
    let base : Rat := (ip : Rat) + (fp : Rat) / ((10 : Rat) ^ fracPart.length)
    let scaled : Rat :=
      if 0 ≤ ex then base * (10 : Rat) ^ ex.toNat
      else base / (10 : Rat) ^ (-ex).toNat
    some ((sign : Rat) * scaled)
  | _, _, _ => none

/-- Python `float(s)` for a string `s`. -/
def parse_float_string (s : String) : Option Rat :=
  parse_float_chars s.data

/-- Python `float(v)` on a non-string value: ints and floats convert,
everything else raises `TypeError` (modelled as `none`; every caller
catches the exception into `None`). -/
def pyFloat? : Val → Option Rat
  | .i n => some (n : Rat)
  | .f q => some q
  | .s s => parse_float_string s
  | _ => none

/-- Python `int(q)` on a float: truncation toward zero. -/
def pyTrunc (q : Rat) : Int :=
  if 0 ≤ q then q.floor else q.ceil

/-- Python `str(v)`.  Exact for strings and ints (the only cases the
claims exercise); other cases are best effort. -/
def pyStr : Val → String
  | .null => "None"
  | .s x => x
  | .i n => toString n
  | .f q => toString q
  | .dt _ => "datetime"
  | .pt _ _ => "point"

/-- Python `str.strip()` (whitespace at both ends). -/
def pyStrip (s : String) : String := s.trim

/-- Python `str.upper()` (ASCII, which covers every token compared). -/
def pyUpper (s : String) : String := s.toUpper

/-- Model of `re.sub(r"\s+", " ", s)` on an already-stripped string:
collapse each internal whitespace run to a single space. -/
def collapse_whitespace (s : String) : String :=
  String.intercalate " "
    (((s.split (fun c => c.isWhitespace)).filter (fun p => p ≠ "")))

/-- Decimal number from a string, for datetime components. -/
def natOf (s : String) : Option Nat := decDigits? s.data

/-- Range-check a parsed datetime the way `datetime.strptime` rejects
out-of-range components (day-in-month is approximated by `≤ 31`; no
claim depends on calendar-exact day counts). -/
def mkDT (y mo d h mi sec us : Nat) : Option PyDateTime :=
  if 1 ≤ mo ∧ mo ≤ 12 ∧ 1 ≤ d ∧ d ≤ 31 ∧ h ≤ 23 ∧ mi ≤ 59 ∧ sec ≤ 59 then
    some ⟨y, mo, d, h, mi, sec, us⟩
  else none

/-- Parse `YYYY-MM-DD`. -/
def parse_date_dash (s : String) : Option (Nat × Nat × Nat) :=
  match s.splitOn "-" with
  | [y, m, d] => do
    let y ← natOf y
    let m ← natOf m
    let d ← natOf d
    pure (y, m, d)
  | _ => none

/-- Parse `MM/DD/YYYY`. -/
def parse_date_slash (s : String) : Option (Nat × Nat × Nat) :=
  match s.splitOn "/" with
  | [m, d, y] => do
    let y ← natOf y
    let m ← natOf m
    let d ← natOf d
    pure (y, m, d)
  | _ => none

/-- Parse `HH:MM:SS`. -/
def parse_hms (s : String) : Option (Nat × Nat × Nat) :=
  match s.splitOn ":" with
  | [h, m, sec] => do
    let h ← natOf h
    let m ← natOf m
    let sec ← natOf sec
    pure (h, m, sec)
  | _ => none

/-- Model of `datetime.strptime` tried over the format list of
`DataSanitizer._parse_datetime` (`src/validators/data_sanitizer.py`):
ISO with/without microseconds, space separated, date only, US slash
format with an (ignored alongside `%H`) AM/PM marker, US date only. -/
def parse_datetime_string (str : String) : Option PyDateTime :=
  let isoMicro : Option PyDateTime :=
    match str.splitOn "T" with
    | [d, t] =>
      match t.splitOn "." with
      | [hms, frac] => do
        let (y, mo, dd) ← parse_date_dash d
        let (h, mi, sec) ← parse_hms hms
        let us ← natOf frac
        if frac.length ≤ 6 then mkDT y mo dd h mi sec us else none
      | _ => none
    | _ => none
  let isoPlain : Option PyDateTime :=
    match str.splitOn "T" with
    | [d, t] => do
      let (y, mo, dd) ← parse_date_dash d
      let (h, mi, sec) ← parse_hms t
      mkDT y mo dd h mi sec 0
    | _ => none
  let spaceSep : Option PyDateTime :=
    match str.splitOn " " with
    | [d, t] => do
      let (y, mo, dd) ← parse_date_dash d
      let (h, mi, sec) ← parse_hms t
      mkDT y mo dd h mi sec 0
    | _ => none
  let dateOnly : Option PyDateTime := do
    let (y, mo, dd) ← parse_date_dash str
    mkDT y mo dd 0 0 0 0
  let usWithTime : Option PyDateTime :=
    match str.splitOn " " with
    | [d, t, p] =>
      if p = "AM" ∨ p = "PM" then do
        let (y, mo, dd) ← parse_date_slash d
        let (h, mi, sec) ← parse_hms t
        mkDT y mo dd h mi sec 0
      else none
    | _ => none
  let usDateOnly : Option PyDateTime := do
    let (y, mo, dd) ← parse_date_slash str
    mkDT y mo dd 0 0 0 0
  (((((isoMicro.or isoPlain).or spaceSep).or dateOnly).or usWithTime).or usDateOnly)

/-- Embed optional cleaned results back into record fields: `None`
becomes `null`. -/
def Val.ofStr? : Option String → Val
  | none => .null
  | some x => .s x

/-- Optional int into a record field. -/
def Val.ofInt? : Option Int → Val
  | none => .null
  | some x => .i x

/-- Optional float into a record field. -/
def Val.ofFloat? : Option Rat → Val
  | none => .null
  | some x => .f x

/-- Optional datetime into a record field. -/
def Val.ofDt? : Option PyDateTime → Val
  | none => .null
  | some x => .dt x

/-! ## Validation configuration (`src/utils/config.py`, `ValidationSettings`)

No `config/config.yaml` exists in the repository, so `load_config()`
yields the field defaults below. -/

/-- Bounds from `ValidationSettings` in `src/utils/config.py`. -/
structure ValidationSettings where
  min_latitude : Rat
  max_latitude : Rat
  min_longitude : Rat
  max_longitude : Rat
  min_age : Int
  max_age : Int
  min_vehicle_year : Int
  max_vehicle_year : Int
  deriving Repr

/-- The default validation settings (`settings.validation`).  The
bounds are the source decimals 41.6, 42.1, -87.95 and -87.5, written
as explicit reduced fractions so that the kernel can evaluate
comparisons against them (see `validation_settings_matches_source`). -/
def validation_settings : ValidationSettings :=
  ⟨Rat.mk' 208 5, Rat.mk' 421 10, Rat.mk' (-1759) 20, Rat.mk' (-175) 2,
   0, 120, 1900, 2025⟩

/-- The fractions in `validation_settings` are exactly the decimal
bounds written in `src/utils/config.py`. -/
theorem validation_settings_matches_source :
    validation_settings.min_latitude = 41.6 ∧
    validation_settings.max_latitude = 42.1 ∧
    validation_settings.min_longitude = -87.95 ∧
    validation_settings.max_longitude = -87.5 := by
  refine ⟨?_, ?_, ?_, ?_⟩ <;>
    · show Rat.mk' _ _ = _
      rw [Rat.mk'_eq_divInt, Rat.divInt_eq_div]
      norm_num

/-- Required natural-key fields per endpoint
(`ValidationSettings.required_fields`). -/
def required_fields : List (String × List String) :=
  [("crashes", ["crash_record_id", "crash_date"]),
   ("people", ["crash_record_id", "person_id"]),
   ("vehicles", ["crash_record_id", "unit_no"]),
   ("fatalities", ["person_id"])]

/-! ## Record sanitizer (`src/validators/data_sanitizer.py`, `DataSanitizer`) -/

namespace DataSanitizer

/-- Null-ish tokens mapped to absent by `_clean_string`. -/
def null_tokens_string : List String := ["NULL", "N/A", "UNKNOWN", "UNK"]

/-- Null-ish tokens mapped to absent by `_clean_integer`/`_clean_float`. -/
def null_tokens_numeric : List String := ["NULL", "N/A"]

/-- Model of `DataSanitizer._clean_string`: trim, null-ish tokens to absent,
collapse whitespace runs, optional truncation (`max_length` is falsy
when `none` or `0`, as in Python). -/
def clean_string (maxLength : Option Nat) (v : Val) : Option String :=
  if v = .null ∨ v = .s "" then none
  else
    let cleaned := pyStrip (pyStr v)
    if cleaned = "" then none
    else if pyUpper cleaned ∈ null_tokens_string then none
    else
      let cleaned := collapse_whitespace cleaned
      match maxLength with
      | some m => if m ≠ 0 ∧ m < cleaned.length then some (cleaned.take m) else some cleaned
      | none => some cleaned

/-- Model of `DataSanitizer._clean_text` delegates to `_clean_string`. -/
def clean_text (v : Val) : Option String := clean_string none v

/-- Model of `DataSanitizer._clean_integer`: `int(float(value))` with null-ish
token handling; unparseable input becomes absent (the source catches
`ValueError`/`TypeError`). -/
def clean_integer (v : Val) : Option Int :=
  if v = .null ∨ v = .s "" then none
  else
    match v with
    | .s s0 =>
      let s1 := pyStrip s0
      if s1 = "" ∨ pyUpper s1 ∈ null_tokens_numeric then none
      else (parse_float_string s1).map pyTrunc
    | other => (pyFloat? other).map pyTrunc

/-- Model of `DataSanitizer._clean_float`: like `_clean_integer` without the
truncation. -/
def clean_float (v : Val) : Option Rat :=
  if v = .null ∨ v = .s "" then none
  else
    match v with
    | .s s0 =>
      let s1 := pyStrip s0
      if s1 = "" ∨ pyUpper s1 ∈ null_tokens_numeric then none
      else parse_float_string s1
    | other => pyFloat? other

/-- Model of `DataSanitizer._parse_datetime`: falsy input is absent, datetimes
pass through, anything else is stringified and tried against the
format list. -/
def parse_datetime (v : Val) : Option PyDateTime :=
  if v.truthy = false then none
  else
    match v with
    | .dt d => some d
    | other => parse_datetime_string (pyStrip (pyStr other))

/-- Coordinate kind passed as `coord_type` (the source only ever
passes these two strings). -/
inductive CoordType where
  | latitude
  | longitude
  deriving DecidableEq, Repr

/-- Model of `DataSanitizer._clean_coordinate`: parse via `_clean_float`, then
bounds-check against the Chicago bounding box for the given kind;
out-of-bounds becomes absent. -/
def clean_coordinate (vs : ValidationSettings) (v : Val) (ct : CoordType) : Option Rat :=
  match clean_float v with
  | none => none
  | some c =>
    match ct with
    | .latitude =>
        if vs.min_latitude ≤ c ∧ c ≤ vs.max_latitude then some c else none
    | .longitude =>
        if vs.min_longitude ≤ c ∧ c ≤ vs.max_longitude then some c else none

/-- Model of `DataSanitizer._clean_age`: integer-parse then bounds-check. -/
def clean_age (vs : ValidationSettings) (v : Val) : Option Int :=
  match clean_integer v with
  | none => none
  | some a => if vs.min_age ≤ a ∧ a ≤ vs.max_age then some a else none

/-- Model of `DataSanitizer._clean_vehicle_year`: integer-parse then
bounds-check. -/
def clean_vehicle_year (vs : ValidationSettings) (v : Val) : Option Int :=
  match clean_integer v with
  | none => none
  | some y =>
    if vs.min_vehicle_year ≤ y ∧ y ≤ vs.max_vehicle_year then some y else none

/-- Integer fields of `sanitize_crash_record`. -/
def crash_integer_fields : List String :=
  ["injuries_total", "injuries_fatal", "injuries_incapacitating",
   "injuries_non_incapacitating", "injuries_reported_not_evident",
   "injuries_no_indication", "injuries_unknown", "posted_speed_limit",
   "street_no", "lane_cnt"]

/-- String fields of `sanitize_crash_record`. -/
def crash_string_fields : List String :=
  ["crash_date_est_i", "traffic_control_device", "device_condition",
   "weather_condition", "lighting_condition", "street_direction",
   "street_name", "crash_type", "damage", "prim_contributory_cause",
   "sec_contributory_cause", "work_zone_i", "work_zone_type",
   "workers_present_i", "hit_and_run_i", "dooring_i",
   "intersection_related_i", "not_right_of_way_i", "alignment",
   "roadway_surface_cond", "road_defect", "report_type",
   "most_severe_injury", "beat_of_occurrence", "photos_taken_i",
   "statements_taken_i"]

/-- Model of `DataSanitizer.sanitize_crash_record`, fields in source insertion
order. -/
def sanitize_crash_record (r : Rec) : Rec :=
  [("crash_record_id", Val.ofStr? (clean_string none (r.get "crash_record_id"))),
   ("crash_date", Val.ofDt? (parse_datetime (r.get "crash_date"))),
   ("latitude", Val.ofFloat? (clean_coordinate validation_settings (r.get "latitude") .latitude)),
   ("longitude", Val.ofFloat? (clean_coordinate validation_settings (r.get "longitude") .longitude))]
  ++ crash_integer_fields.map (fun fl => (fl, Val.ofInt? (clean_integer (r.get fl))))
  ++ crash_string_fields.map (fun fl => (fl, Val.ofStr? (clean_string none (r.get fl))))
  ++ [("date_police_notified", Val.ofDt? (parse_datetime (r.get "date_police_notified")))]

/-- String fields of `sanitize_person_record`. -/
def person_string_fields : List String :=
  ["person_type", "sex", "safety_equipment", "airbag_deployed",
   "ejection", "injury_classification", "hospital", "ems_agency",
   "ems_unit", "drivers_license_state", "drivers_license_class",
   "physical_condition", "pedpedal_action", "pedpedal_visibility",
   "pedpedal_location", "bac_result", "cell_phone_use"]

/-- Field name `area_{i:02d}_i` for the area injury indicators. -/
def area_field (i : Nat) : String :=
  "area_" ++ (if i < 10 then "0" ++ toString i else toString i) ++ "_i"

/-- Model of `DataSanitizer.sanitize_person_record`, fields in source insertion
order. -/
def sanitize_person_record (r : Rec) : Rec :=
  [("crash_record_id", Val.ofStr? (clean_string none (r.get "crash_record_id"))),
   ("person_id", Val.ofStr? (clean_string none (r.get "person_id"))),
   ("age", Val.ofInt? (clean_age validation_settings (r.get "age")))]
  ++ person_string_fields.map (fun fl => (fl, Val.ofStr? (clean_string none (r.get fl))))
  ++ [("bac_result_value", Val.ofFloat? (clean_float (r.get "bac_result_value")))]
  ++ (List.range 13).map (fun i => (area_field i, Val.ofStr? (clean_string none (r.get (area_field i)))))

/-- String fields of `sanitize_vehicle_record`. -/
def vehicle_string_fields : List String :=
  ["unit_type", "vehicle_id", "cmv_id", "make", "model",
   "lic_plate_state", "vehicle_defect", "vehicle_type",
   "vehicle_use", "travel_direction", "maneuver", "towed_i",
   "fire_i", "hazmat_placard_i", "hazmat_name", "hazmat_present_i",
   "first_contact_point"]

/-- Model of `DataSanitizer.sanitize_vehicle_record`, fields in source insertion
order.  Note the emitted keys: `crash_record_id` and `unit_no`, never
`crash_unit_id`. -/
def sanitize_vehicle_record (r : Rec) : Rec :=
  [("crash_record_id", Val.ofStr? (clean_string none (r.get "crash_record_id"))),
   ("unit_no", Val.ofStr? (clean_string none (r.get "unit_no"))),
   ("vehicle_year", Val.ofInt? (clean_vehicle_year validation_settings (r.get "vehicle_year")))]
  ++ ["num_passengers", "occupant_cnt"].map (fun fl => (fl, Val.ofInt? (clean_integer (r.get fl))))
  ++ vehicle_string_fields.map (fun fl => (fl, Val.ofStr? (clean_string none (r.get fl))))

/-- Model of `DataSanitizer.sanitize_fatality_record`, fields in source
insertion order. -/
def sanitize_fatality_record (r : Rec) : Rec :=
  [("person_id", Val.ofStr? (clean_string none (r.get "person_id"))),
   ("rd_no", Val.ofStr? (clean_string none (r.get "rd_no"))),
   ("crash_date", Val.ofDt? (parse_datetime (r.get "crash_date"))),
   ("latitude", Val.ofFloat? (clean_coordinate validation_settings (r.get "latitude") .latitude)),
   ("longitude", Val.ofFloat? (clean_coordinate validation_settings (r.get "longitude") .longitude))]
  ++ ["crash_location", "crash_circumstances", "geocoded_column"].map
      (fun fl => (fl, Val.ofStr? (clean_text (r.get fl))))
  ++ [("victim", Val.ofStr? (clean_string none (r.get "victim")))]

/-- Loop body of `DataSanitizer.remove_duplicates`: keep a record when
its key value is truthy and not yet seen; every other record is
dropped and counted in `duplicates_count`. -/
def remove_duplicates_go (key : String) (seen : List Val) : List Rec → List Rec × Nat
  | [] => ([], 0)
  | r :: rest =>
    let kv := r.get key
    if kv.truthy && !(seen.any (fun e => pyEq e kv)) then
      let p := remove_duplicates_go key (kv :: seen) rest
      (r :: p.1, p.2)
    else
      let p := remove_duplicates_go key seen rest
      (p.1, p.2 + 1)

/-- Model of `DataSanitizer.remove_duplicates`.  The source returns only the
deduplicated list and logs `duplicates_count`; the model returns the
logged count alongside. -/
def remove_duplicates (records : List Rec) (key : String) : List Rec × Nat :=
  remove_duplicates_go key [] records

end DataSanitizer

/-! ## Persistence upsert layer (`src/services/database_service.py`, `DatabaseService`)

SQLAlchemy entity rows are embedded as `Rec` (attribute bags):
`getattr(row, f, None)` is `Rec.get`, attribute assignment is
`Rec.set`, a table is a `List Rec`, and `query(...).filter(...).first()`
is `List.find?` over the table.  The attribute sets written by the
service are exactly the constructor keyword arguments of
`_create_*_record` (the `src/models/crashes.py` module itself is not
part of the sources; its column sets are visible through those
constructors and through the alembic migrations under `migrations/`,
which carry no column named after any update indicator for the
people/vehicles/fatalities tables). -/

namespace DatabaseService

/-- Result counters of one upsert call. -/
structure Counts where
  inserted : Nat
  updated : Nat
  skipped : Nat
  deriving DecidableEq, Repr

/-- Model of `DatabaseService._create_geometry`: a WKT point when both
coordinates are truthy, otherwise SQL NULL. -/
def create_geometry (latitude longitude : Rat) : Val :=
  if latitude ≠ 0 ∧ longitude ≠ 0 then .pt longitude latitude else .null

/-- Model of `DatabaseService._parse_int` with its `default` parameter. -/
def db_parse_int (default : Option Int) (v : Val) : Option Int :=
  if v = .null ∨ v = .s "" then default
  else
    match pyFloat? v with
    | some q => some (pyTrunc q)
    | none => default

/-- Model of `DatabaseService._parse_float`. -/
def db_parse_float (v : Val) : Option Rat :=
  if v = .null ∨ v = .s "" then none
  else pyFloat? v

/-- String part of `DatabaseService._parse_datetime`:
`datetime.fromisoformat` after normalising `T`/`Z`, then the fallback
`strptime` formats `%Y-%m-%d %H:%M:%S`, `%Y-%m-%d`,
`%m/%d/%Y %H:%M:%S`, `%m/%d/%Y`. -/
def db_parse_datetime_string (s0 : String) : Option PyDateTime :=
  let str := (s0.replace "T" " ").replace "Z" ""
  let iso : Option PyDateTime :=
    match str.splitOn " " with
    | [d] => do
      let (y, mo, dd) ← parse_date_dash d
      mkDT y mo dd 0 0 0 0
    | [d, t] =>
      match t.splitOn "." with
      | [hms] => do
        let (y, mo, dd) ← parse_date_dash d
        let (h, mi, sec) ← parse_hms hms
        mkDT y mo dd h mi sec 0
      | [hms, frac] => do
        let (y, mo, dd) ← parse_date_dash d
        let (h, mi, sec) ← parse_hms hms
        let us ← natOf frac
        if frac.length ≤ 6 then mkDT y mo dd h mi sec us else none
      | _ => none
    | _ => none
  let f1 : Option PyDateTime :=
    match str.splitOn " " with
    | [d, t] => do
      let (y, mo, dd) ← parse_date_dash d
      let (h, mi, sec) ← parse_hms t
      mkDT y mo dd h mi sec 0
    | _ => none
  let f2 : Option PyDateTime := do
    let (y, mo, dd) ← parse_date_dash str
    mkDT y mo dd 0 0 0 0
  let f3 : Option PyDateTime :=
    match str.splitOn " " with
    | [d, t] => do
      let (y, mo, dd) ← parse_date_slash d
      let (h, mi, sec) ← parse_hms t
      mkDT y mo dd h mi sec 0
    | _ => none
  let f4 : Option PyDateTime := do
    let (y, mo, dd) ← parse_date_slash str
    mkDT y mo dd 0 0 0 0
  ((((iso.or f1).or f2).or f3).or f4)

/-- Model of `DatabaseService._parse_datetime`: falsy values and non-string
non-datetime values yield `None`. -/
def db_parse_datetime (v : Val) : Option PyDateTime :=
  if v.truthy = false then none
  else
    match v with
    | .dt d => some d
    | .s str => db_parse_datetime_string str
    | _ => none

/-- The update-indicator fields of `DatabaseService._needs_update`. -/
def update_indicators : List String :=
  ["prim_contributory_cause", "sec_contributory_cause",
   "most_severe_injury", "injuries_total", "injuries_fatal",
   "damage", "report_type"]

/-- Model of `DatabaseService._needs_update`: an existing row needs updating
iff some update-indicator field present in the incoming record differs
from the stored attribute (`getattr(existing, field, None)`).
The `last_modified_field` branch of the source is dead code: every
call site invokes `_needs_update(existing, record)` with the default
`last_modified_field=None`, so it is not modelled. -/
def needs_update (existing newData : Rec) : Bool :=
  update_indicators.any
    (fun fl => newData.hasKey fl && !(pyEq (existing.get fl) (newData.get fl)))

/-- Geometry computed by `_create_crash_record` /
`_create_fatality_record`: raw coordinates must be truthy, then
`float(...)` is applied.  (An unparseable truthy coordinate string
would raise in the source and abort the batch; the model maps that
corner to a null geometry — no claim depends on it.) -/
def geometry_of (lat lng : Val) : Val :=
  if lat.truthy && lng.truthy then
    match pyFloat? lat, pyFloat? lng with
    | some a, some b => create_geometry a b
    | _, _ => .null
  else .null

/-- Model of `DatabaseService._create_crash_record`, attributes in constructor
order. -/
def create_crash_record (r : Rec) : Rec :=
  let lat := r.get "latitude"
  let lng := r.get "longitude"
  [("crash_record_id", r.get "crash_record_id"),
   ("crash_date", Val.ofDt? (db_parse_datetime (r.get "crash_date"))),
   ("crash_date_est_i", r.get "crash_date_est_i"),
   ("posted_speed_limit", Val.ofInt? (db_parse_int none (r.get "posted_speed_limit"))),
   ("traffic_control_device", r.get "traffic_control_device"),
   ("device_condition", r.get "device_condition"),
   ("weather_condition", r.get "weather_condition"),
   ("lighting_condition", r.get "lighting_condition"),
   ("street_no", r.get "street_no"),
   ("street_direction", r.get "street_direction"),
   ("street_name", r.get "street_name"),
   ("sec_contributory_cause", r.get "sec_contributory_cause"),
   ("crash_type", r.get "crash_type"),
   ("latitude", Val.ofFloat? (db_parse_float lat)),
   ("longitude", Val.ofFloat? (db_parse_float lng)),
   ("geometry", geometry_of lat lng),
   ("beat_of_occurrence", r.get "beat_of_occurrence"),
   ("photos_taken_i", r.get "photos_taken_i"),
   ("statements_taken_i", r.get "statements_taken_i"),
   ("damage", r.get "damage"),
   ("date_police_notified", Val.ofDt? (db_parse_datetime (r.get "date_police_notified"))),
   ("prim_contributory_cause", r.get "prim_contributory_cause"),
   ("work_zone_i", r.get "work_zone_i"),
   ("work_zone_type", r.get "work_zone_type"),
   ("workers_present_i", r.get "workers_present_i"),
   ("injuries_total", Val.ofInt? (db_parse_int (some 0) (r.get "injuries_total"))),
   ("injuries_fatal", Val.ofInt? (db_parse_int (some 0) (r.get "injuries_fatal"))),
   ("injuries_incapacitating", Val.ofInt? (db_parse_int (some 0) (r.get "injuries_incapacitating"))),
   ("injuries_non_incapacitating", Val.ofInt? (db_parse_int (some 0) (r.get "injuries_non_incapacitating"))),
   ("injuries_reported_not_evident", Val.ofInt? (db_parse_int (some 0) (r.get "injuries_reported_not_evident"))),
   ("injuries_no_indication", Val.ofInt? (db_parse_int (some 0) (r.get "injuries_no_indication"))),
   ("injuries_unknown", Val.ofInt? (db_parse_int (some 0) (r.get "injuries_unknown"))),
   ("hit_and_run_i", r.get "hit_and_run_i"),
   ("dooring_i", r.get "dooring_i"),
   ("intersection_related_i", r.get "intersection_related_i"),
   ("not_right_of_way_i", r.get "not_right_of_way_i"),
   ("lane_cnt", Val.ofInt? (db_parse_int none (r.get "lane_cnt"))),
   ("alignment", r.get "alignment"),
   ("roadway_surface_cond", r.get "roadway_surface_cond"),
   ("road_defect", r.get "road_defect"),
   ("report_type", r.get "report_type"),
   ("most_severe_injury", r.get "most_severe_injury")]

/-- Model of `DatabaseService._update_crash_record`, assignments in source
order; coordinates and geometry only when both raw values are truthy. -/
def update_crash_record (existing : Rec) (r : Rec) : Rec :=
  let e := existing
  let e := e.set "crash_date_est_i" (r.get "crash_date_est_i")
  let e := e.set "posted_speed_limit" (Val.ofInt? (db_parse_int none (r.get "posted_speed_limit")))
  let e := e.set "traffic_control_device" (r.get "traffic_control_device")
  let e := e.set "device_condition" (r.get "device_condition")
  let e := e.set "weather_condition" (r.get "weather_condition")
  let e := e.set "lighting_condition" (r.get "lighting_condition")
  let e := e.set "damage" (r.get "damage")
  let e := e.set "date_police_notified" (Val.ofDt? (db_parse_datetime (r.get "date_police_notified")))
  let e := e.set "prim_contributory_cause" (r.get "prim_contributory_cause")
  let e := e.set "sec_contributory_cause" (r.get "sec_contributory_cause")
  let e := e.set "work_zone_i" (r.get "work_zone_i")
  let e := e.set "work_zone_type" (r.get "work_zone_type")
  let e := e.set "workers_present_i" (r.get "workers_present_i")
  let e := e.set "injuries_total" (Val.ofInt? (db_parse_int (some 0) (r.get "injuries_total")))
  let e := e.set "injuries_fatal" (Val.ofInt? (db_parse_int (some 0) (r.get "injuries_fatal")))
  let e := e.set "injuries_incapacitating" (Val.ofInt? (db_parse_int (some 0) (r.get "injuries_incapacitating")))
  let e := e.set "injuries_non_incapacitating" (Val.ofInt? (db_parse_int (some 0) (r.get "injuries_non_incapacitating")))
  let e := e.set "injuries_reported_not_evident" (Val.ofInt? (db_parse_int (some 0) (r.get "injuries_reported_not_evident")))
  let e := e.set "injuries_no_indication" (Val.ofInt? (db_parse_int (some 0) (r.get "injuries_no_indication")))
  let e := e.set "injuries_unknown" (Val.ofInt? (db_parse_int (some 0) (r.get "injuries_unknown")))
  let e := e.set "hit_and_run_i" (r.get "hit_and_run_i")
  let e := e.set "dooring_i" (r.get "dooring_i")
  let e := e.set "intersection_related_i" (r.get "intersection_related_i")
  let e := e.set "not_right_of_way_i" (r.get "not_right_of_way_i")
  let e := e.set "report_type" (r.get "report_type")
  let e := e.set "most_severe_injury" (r.get "most_severe_injury")
  let e := e.set "photos_taken_i" (r.get "photos_taken_i")
  let e := e.set "statements_taken_i" (r.get "statements_taken_i")
  let lat := r.get "latitude"
  let lng := r.get "longitude"
  if lat.truthy && lng.truthy then
    let e := e.set "latitude" (Val.ofFloat? (db_parse_float lat))
    let e := e.set "longitude" (Val.ofFloat? (db_parse_float lng))
    e.set "geometry" (geometry_of lat lng)
  else e

/-- Model of `DatabaseService._create_person_record`, attributes in constructor
order. -/
def create_person_record (r : Rec) : Rec :=
  [("crash_record_id", r.get "crash_record_id"),
   ("person_id", r.get "person_id"),
   ("crash_date", Val.ofDt? (db_parse_datetime (r.get "crash_date"))),
   ("vehicle_id", r.get "vehicle_id"),
   ("person_type", r.get "person_type"),
   ("age", Val.ofInt? (db_parse_int none (r.get "age"))),
   ("sex", r.get "sex"),
   ("safety_equipment", r.get "safety_equipment"),
   ("airbag_deployed", r.get "airbag_deployed"),
   ("ejection", r.get "ejection"),
   ("injury_classification", r.get "injury_classification"),
   ("hospital", r.get "hospital"),
   ("ems_agency", r.get "ems_agency"),
   ("ems_unit", r.get "ems_unit"),
   ("drivers_license_state", r.get "drivers_license_state"),
   ("drivers_license_class", r.get "drivers_license_class"),
   ("driver_action", r.get "driver_action"),
   ("driver_vision", r.get "driver_vision"),
   ("physical_condition", r.get "physical_condition"),
   ("pedpedal_action", r.get "pedpedal_action"),
   ("pedpedal_visibility", r.get "pedpedal_visibility"),
   ("pedpedal_location", r.get "pedpedal_location"),
   ("bac_result", r.get "bac_result"),
   ("bac_result_value", Val.ofFloat? (db_parse_float (r.get "bac_result_value"))),
   ("cell_phone_use", r.get "cell_phone_use")]

/-- Model of `DatabaseService._update_person_record`: overwrites only the
listed subset of columns (note: not every non-key column). -/
def update_person_record (existing : Rec) (r : Rec) : Rec :=
  let e := existing
  let e := e.set "crash_date" (Val.ofDt? (db_parse_datetime (r.get "crash_date")))
  let e := e.set "vehicle_id" (r.get "vehicle_id")
  let e := e.set "injury_classification" (r.get "injury_classification")
  let e := e.set "hospital" (r.get "hospital")
  let e := e.set "ems_agency" (r.get "ems_agency")
  let e := e.set "ems_unit" (r.get "ems_unit")
  let e := e.set "driver_action" (r.get "driver_action")
  let e := e.set "driver_vision" (r.get "driver_vision")
  let e := e.set "physical_condition" (r.get "physical_condition")
  let e := e.set "bac_result" (r.get "bac_result")
  let e := e.set "bac_result_value" (Val.ofFloat? (db_parse_float (r.get "bac_result_value")))
  e.set "cell_phone_use" (r.get "cell_phone_use")

/-- Model of `DatabaseService._create_vehicle_record`, attributes in
constructor order. -/
def create_vehicle_record (r : Rec) : Rec :=
  [("crash_unit_id", r.get "crash_unit_id"),
   ("crash_record_id", r.get "crash_record_id"),
   ("unit_no", r.get "unit_no"),
   ("crash_date", Val.ofDt? (db_parse_datetime (r.get "crash_date"))),
   ("unit_type", r.get "unit_type"),
   ("num_passengers", Val.ofInt? (db_parse_int none (r.get "num_passengers"))),
   ("vehicle_id", r.get "vehicle_id"),
   ("cmv_id", r.get "cmv_id"),
   ("make", r.get "make"),
   ("model", r.get "model"),
   ("lic_plate_state", r.get "lic_plate_state"),
   ("vehicle_year", Val.ofInt? (db_parse_int none (r.get "vehicle_year"))),
   ("vehicle_defect", r.get "vehicle_defect"),
   ("vehicle_type", r.get "vehicle_type"),
   ("vehicle_use", r.get "vehicle_use"),
   ("travel_direction", r.get "travel_direction"),
   ("maneuver", r.get "maneuver"),
   ("towed_i", r.get "towed_i"),
   ("fire_i", r.get "fire_i"),
   ("hazmat_placard_i", r.get "hazmat_placard_i"),
   ("hazmat_name", r.get "hazmat_name"),
   ("hazmat_present_i", r.get "hazmat_present_i"),
   ("occupant_cnt", Val.ofInt? (db_parse_int none (r.get "occupant_cnt"))),
   ("first_contact_point", r.get "first_contact_point")]

/-- Model of `DatabaseService._update_vehicle_record`. -/
def update_vehicle_record (existing : Rec) (r : Rec) : Rec :=
  let e := existing
  let e := e.set "crash_date" (Val.ofDt? (db_parse_datetime (r.get "crash_date")))
  let e := e.set "vehicle_defect" (r.get "vehicle_defect")
  let e := e.set "towed_i" (r.get "towed_i")
  let e := e.set "fire_i" (r.get "fire_i")
  let e := e.set "hazmat_placard_i" (r.get "hazmat_placard_i")
  let e := e.set "hazmat_name" (r.get "hazmat_name")
  let e := e.set "hazmat_present_i" (r.get "hazmat_present_i")
  let e := e.set "occupant_cnt" (Val.ofInt? (db_parse_int none (r.get "occupant_cnt")))
  e.set "first_contact_point" (r.get "first_contact_point")

/-- Model of `DatabaseService._create_fatality_record`, attributes in
constructor order. -/
def create_fatality_record (r : Rec) : Rec :=
  let lat := r.get "latitude"
  let lng := r.get "longitude"
  [("person_id", r.get "person_id"),
   ("rd_no", r.get "rd_no"),
   ("crash_date", Val.ofDt? (db_parse_datetime (r.get "crash_date"))),
   ("crash_location", r.get "crash_location"),
   ("victim", r.get "victim"),
   ("crash_circumstances", r.get "crash_circumstances"),
   ("longitude", Val.ofFloat? (db_parse_float lng)),
   ("latitude", Val.ofFloat? (db_parse_float lat)),
   ("geometry", geometry_of lat lng),
   ("geocoded_column", r.get "geocoded_column")]

/-- Model of `DatabaseService._update_fatality_record`. -/
def update_fatality_record (existing : Rec) (r : Rec) : Rec :=
  let e := existing
  let e := e.set "crash_circumstances" (r.get "crash_circumstances")
  let e := e.set "geocoded_column" (r.get "geocoded_column")
  let lat := r.get "latitude"
  let lng := r.get "longitude"
  if lat.truthy && lng.truthy then
    let e := e.set "latitude" (Val.ofFloat? (db_parse_float lat))
    let e := e.set "longitude" (Val.ofFloat? (db_parse_float lng))
    e.set "geometry" (geometry_of lat lng)
  else e

/-- Mutate the first row matching `p` in a table, as SQLAlchemy does
when the object returned by `.first()` is updated in place. -/
def update_first (p : Rec → Bool) (upd : Rec → Rec) : List Rec → List Rec
  | [] => []
  | row :: rest => if p row then upd row :: rest else row :: update_first p upd rest

/-- Loop body of `DatabaseService._insert_crash_batch`. -/
def insert_crash_step (st : List Rec × Counts) (r : Rec) : List Rec × Counts :=
  let store := st.1
  let c := st.2
  let crashId := r.get "crash_record_id"
  if crashId.truthy = false then
    (store, { c with skipped := c.skipped + 1 })
  else
    let pred := fun row => pyEq (row.get "crash_record_id") crashId
    match store.find? pred with
    | some existing =>
      if needs_update existing r then
        (update_first pred (fun row => update_crash_record row r) store,
         { c with updated := c.updated + 1 })
      else (store, { c with skipped := c.skipped + 1 })
    | none =>
      (store ++ [create_crash_record r], { c with inserted := c.inserted + 1 })

/-- Model of `DatabaseService._insert_crash_batch`: upsert one batch against a
crash table, returning the new table and the counters. -/
def insert_crash_batch (store : List Rec) (records : List Rec) : List Rec × Counts :=
  records.foldl insert_crash_step (store, ⟨0, 0, 0⟩)

/-- Loop body of `DatabaseService.insert_person_records`. -/
def insert_person_step (st : List Rec × Counts) (r : Rec) : List Rec × Counts :=
  let store := st.1
  let c := st.2
  let crashId := r.get "crash_record_id"
  let personId := r.get "person_id"
  if crashId.truthy = false ∨ personId.truthy = false then
    (store, { c with skipped := c.skipped + 1 })
  else
    let pred := fun row =>
      pyEq (row.get "crash_record_id") crashId && pyEq (row.get "person_id") personId
    match store.find? pred with
    | some existing =>
      if needs_update existing r then
        (update_first pred (fun row => update_person_record row r) store,
         { c with updated := c.updated + 1 })
      else (store, { c with skipped := c.skipped + 1 })
    | none =>
      (store ++ [create_person_record r], { c with inserted := c.inserted + 1 })

/-- Model of `DatabaseService.insert_person_records`. -/
def insert_person_records (store : List Rec) (records : List Rec) : List Rec × Counts :=
  records.foldl insert_person_step (store, ⟨0, 0, 0⟩)

/-- Loop body of `DatabaseService.insert_vehicle_records`; the lookup
key is `crash_unit_id`. -/
def insert_vehicle_step (st : List Rec × Counts) (r : Rec) : List Rec × Counts :=
  let store := st.1
  let c := st.2
  let crashUnitId := r.get "crash_unit_id"
  if crashUnitId.truthy = false then
    (store, { c with skipped := c.skipped + 1 })
  else
    let pred := fun row => pyEq (row.get "crash_unit_id") crashUnitId
    match store.find? pred with
    | some existing =>
      if needs_update existing r then
        (update_first pred (fun row => update_vehicle_record row r) store,
         { c with updated := c.updated + 1 })
      else (store, { c with skipped := c.skipped + 1 })
    | none =>
      (store ++ [create_vehicle_record r], { c with inserted := c.inserted + 1 })

/-- Model of `DatabaseService.insert_vehicle_records`. -/
def insert_vehicle_records (store : List Rec) (records : List Rec) : List Rec × Counts :=
  records.foldl insert_vehicle_step (store, ⟨0, 0, 0⟩)

/-- Loop body of `DatabaseService.insert_fatality_records`. -/
def insert_fatality_step (st : List Rec × Counts) (r : Rec) : List Rec × Counts :=
  let store := st.1
  let c := st.2
  let personId := r.get "person_id"
  if personId.truthy = false then
    (store, { c with skipped := c.skipped + 1 })
  else
    let pred := fun row => pyEq (row.get "person_id") personId
    match store.find? pred with
    | some existing =>
      if needs_update existing r then
        (update_first pred (fun row => update_fatality_record row r) store,
         { c with updated := c.updated + 1 })
      else (store, { c with skipped := c.skipped + 1 })
    | none =>
      (store ++ [create_fatality_record r], { c with inserted := c.inserted + 1 })

/-- Model of `DatabaseService.insert_fatality_records`. -/
def insert_fatality_records (store : List Rec) (records : List Rec) : List Rec × Counts :=
  records.foldl insert_fatality_step (store, ⟨0, 0, 0⟩)

end DatabaseService

/-! ## Remote data client (`src/etl/soda_client.py`, `SODAClient`)

The network is abstracted to an environment: the result of the count
query and a per-batch fetch oracle (`fetch_records` at offset
`batch_num * batch_size`) that may raise. -/

/-- Abstraction of the remote API as seen by `fetch_all_records`. -/
structure FetchEnv where
  totalCount : Nat
  fetchBatch : Nat → Except String (List Rec)

/-- Model of `num_batches = (total_count + batch_size - 1) // batch_size`. -/
def num_batches (totalCount batchSize : Nat) : Nat :=
  (totalCount + batchSize - 1) / batchSize

/-- Batch loop of `SODAClient.fetch_all_records`: batches `0..n-1` in
order; a batch whose fetch raises is logged and skipped
(`# Continue with next batch rather than failing completely`), so no
exception escapes the loop. -/
def fetch_loop (fetch : Nat → Except String (List Rec)) : Nat → List Rec
  | 0 => []
  | n + 1 =>
    fetch_loop fetch n ++
      (match fetch n with
       | .ok batch => batch
       | .error _ => [])

/-- Model of `SODAClient.fetch_all_records`: count, early return on zero, then
the error-swallowing batch loop.  Total: it never propagates a
batch-level fetch error. -/
def fetch_all_records (env : FetchEnv) (batchSize : Nat) : List Rec :=
  if env.totalCount = 0 then []
  else fetch_loop env.fetchBatch (num_batches env.totalCount batchSize)

/-- The attribute names defined by `class SODAClient`
(`src/etl/soda_client.py`).  Note: no `iter_batches`. -/
def soda_client_method_names : List String :=
  ["timeout", "rate_limit", "rate_limiter", "client", "headers",
   "__init__", "__aenter__", "__aexit__",
   "fetch_records", "fetch_all_records", "fetch_incremental_records",
   "_make_request", "_get_record_count"]

/-- A Python exception surfaced through the pipeline. -/
structure PyErr where
  etype : String
  msg : String
  deriving DecidableEq, Repr

/-- Model of `AttributeError` for a missing attribute. -/
def attribute_error (attr : String) : PyErr := ⟨"AttributeError", attr⟩

/-- A client object as duck-typed by `SyncService._sync_single_endpoint`:
its attribute names (consulted by `hasattr`), the batches its
`iter_batches` would yield when it has one, and its
`fetch_all_records` environment. -/
structure Client where
  methods : List String
  stream : List (List Rec)
  fetchEnv : FetchEnv

/-- The production `SODAClient` over a given remote environment. -/
def soda_client (env : FetchEnv) : Client :=
  ⟨soda_client_method_names, [], env⟩

/-! ## Sync orchestrator (`src/services/sync_service.py`, `SyncService`) -/

/-- Per-endpoint counters of `SyncService` (`EndpointSyncResult`). -/
structure EndpointSyncResult where
  name : String
  batches_processed : Nat
  records_fetched : Nat
  records_inserted : Nat
  records_updated : Nat
  records_skipped : Nat
  deriving DecidableEq, Repr

namespace SyncService

/-- Zero-initialised `EndpointSyncResult(name=endpoint)`. -/
def empty_result (endpoint : String) : EndpointSyncResult :=
  ⟨endpoint, 0, 0, 0, 0, 0⟩

/-- Model of `SyncService._sanitize_batch`: per-endpoint sanitizer dispatch,
with fatality deduplication by `person_id`; unknown endpoints pass
through. -/
def sanitize_batch (endpoint : String) (records : List Rec) : List Rec :=
  if endpoint = "crashes" then records.map DataSanitizer.sanitize_crash_record
  else if endpoint = "people" then records.map DataSanitizer.sanitize_person_record
  else if endpoint = "vehicles" then records.map DataSanitizer.sanitize_vehicle_record
  else if endpoint = "fatalities" then
    (DataSanitizer.remove_duplicates
      (records.map DataSanitizer.sanitize_fatality_record) "person_id").1
  else records

/-- The attribute names defined by `class DatabaseService`
(`src/services/database_service.py`).  Note: the four persistence
entry points are named `insert_*`; no `upsert_*` attribute exists. -/
def database_service_method_names : List String :=
  ["session_factory", "__init__", "_create_geometry", "_needs_update",
   "insert_crash_records", "_insert_crash_batch", "_create_crash_record",
   "_update_crash_record", "insert_person_records", "_create_person_record",
   "_update_person_record", "insert_vehicle_records", "_create_vehicle_record",
   "_update_vehicle_record", "insert_fatality_records",
   "_create_fatality_record", "_update_fatality_record",
   "get_record_counts", "_parse_datetime", "_parse_int", "_parse_float"]

/-- An injected persistence dependency (`SyncService` takes
`database_service` as a constructor argument). -/
abbrev Persist := String → List Rec → Except PyErr DatabaseService.Counts

/-- Model of `SyncService._persist_batch` with the default `DatabaseService()`:
empty batches short-circuit; the four known endpoints look up
`self.database_service.upsert_*_records`, and since `DatabaseService`
defines no such attribute the lookup raises `AttributeError` before
any call happens (the `.ok` branches under the membership tests are
unreachable); unknown endpoints report everything skipped. -/
def persist_batch_default : Persist := fun endpoint records =>
  if records.isEmpty then .ok ⟨0, 0, 0⟩
  else if endpoint = "crashes" then
    if "upsert_crash_records" ∈ database_service_method_names then .ok ⟨0, 0, 0⟩
    else .error (attribute_error "upsert_crash_records")
  else if endpoint = "people" then
    if "upsert_person_records" ∈ database_service_method_names then .ok ⟨0, 0, 0⟩
    else .error (attribute_error "upsert_person_records")
  else if endpoint = "vehicles" then
    if "upsert_vehicle_records" ∈ database_service_method_names then .ok ⟨0, 0, 0⟩
    else .error (attribute_error "upsert_vehicle_records")
  else if endpoint = "fatalities" then
    if "upsert_fatality_records" ∈ database_service_method_names then .ok ⟨0, 0, 0⟩
    else .error (attribute_error "upsert_fatality_records")
  else .ok ⟨0, 0, records.length⟩

/-- The `hasattr(client, "iter_batches")` dispatch test of
`SyncService._sync_single_endpoint`. -/
def has_iter_batches (c : Client) : Bool :=
  "iter_batches" ∈ c.methods

/-- Streaming branch of `_sync_single_endpoint`: one sanitize+persist
round per yielded batch, accumulating the counters; a persistence
error propagates immediately. -/
def streaming_loop (persist : Persist) (endpoint : String) :
    List (List Rec) → EndpointSyncResult → Except PyErr EndpointSyncResult
  | [], acc => .ok acc
  | batch :: rest, acc => do
    let acc := { acc with
      batches_processed := acc.batches_processed + 1,
      records_fetched := acc.records_fetched + batch.length }
    let processed := sanitize_batch endpoint batch
    let dbResult ← persist endpoint processed
    let acc := { acc with
      records_inserted := acc.records_inserted + dbResult.inserted,
      records_updated := acc.records_updated + dbResult.updated,
      records_skipped := acc.records_skipped + dbResult.skipped }
    streaming_loop persist endpoint rest acc

/-- Fallback branch of `_sync_single_endpoint`
(`# pragma: no cover - compatibility path for mocked clients`): one
eager `fetch_all_records` call, then a single sanitize+persist round
when any records came back. -/
def fallback_sync_endpoint (client : Client) (persist : Persist)
    (endpoint : String) (batchSize : Nat) : Except PyErr EndpointSyncResult :=
  let records := fetch_all_records client.fetchEnv batchSize
  if records.isEmpty then .ok (empty_result endpoint)
  else do
    let acc := { empty_result endpoint with records_fetched := records.length }
    let processed := sanitize_batch endpoint records
    let dbResult ← persist endpoint processed
    .ok { acc with
      records_inserted := dbResult.inserted,
      records_updated := dbResult.updated,
      records_skipped := dbResult.skipped }

/-- Model of `SyncService._sync_single_endpoint`: dispatch on
`hasattr(client, "iter_batches")`.  (The optional `batch_callback`
observer hook is not modelled.) -/
def sync_single_endpoint (client : Client) (persist : Persist)
    (endpoint : String) (batchSize : Nat) : Except PyErr EndpointSyncResult :=
  if has_iter_batches client then
    streaming_loop persist endpoint client.stream (empty_result endpoint)
  else
    fallback_sync_endpoint client persist endpoint batchSize

/-- Model of `SyncService.sync`: endpoints strictly in order; the first
exception propagates, aborting the remaining endpoints.  The
`endpoint_results` dict is modelled as ordered pairs; the wall-clock
`started_at`/`completed_at` stamps are not modelled. -/
def sync (client : Client) (persist : Persist) (batchSize : Nat) :
    List String → Except PyErr (List (String × EndpointSyncResult))
  | [] => .ok []
  | e :: rest => do
    let r ← sync_single_endpoint client persist e batchSize
    let rs ← sync client persist batchSize rest
    .ok ((e, r) :: rs)

end SyncService

/-! ## Job executor (`src/services/job_service.py`, `src/models/jobs.py`)

Wall-clock times are embedded as seconds (`Int`), making
`timedelta(days=1)` the constant `86400`. -/

/-- Epoch seconds. -/
abbrev Time := Int

/-- Model of `RecurrenceType` from `src/models/jobs.py`. -/
inductive RecurrenceType where
  | once
  | daily
  | weekly
  | monthly
  | custom_cron
  deriving DecidableEq, Repr

/-- Model of `JobStatus` from `src/models/jobs.py`. -/
inductive JobStatus where
  | pending
  | running
  | completed
  | failed
  | cancelled
  | scheduled
  deriving DecidableEq, Repr

/-- The fields of `ScheduledJob` read or written by
`JobService._run_job_execution`. -/
structure ScheduledJob where
  name : String
  enabled : Bool
  recurrence_type : RecurrenceType
  cron_expression : Option String
  next_run : Option Time
  last_run : Option Time
  deriving DecidableEq, Repr

/-- The fields of `JobExecution` read or written by
`JobService._run_job_execution` (the JSON execution-context blob and
its log entries are not modelled). -/
structure JobExecution where
  execution_id : String
  status : JobStatus
  started_at : Option Time
  completed_at : Option Time
  duration_seconds : Option Int
  records_processed : Nat
  records_inserted : Nat
  records_updated : Nat
  records_skipped : Nat
  error_message : Option String
  error_details : Option String
  deriving DecidableEq, Repr

/-- Aggregate totals read off a `SyncResult` by the executor. -/
structure SyncTotals where
  processed : Nat
  inserted : Nat
  updated : Nat
  skipped : Nat
  deriving DecidableEq, Repr

/-- Model of `calculate_next_run` from `src/models/jobs.py`.  The
`cron_expression` argument is accepted and ignored, exactly as in the
source (custom cron falls back to `+1 day`); the `now + 1 hour`
default return is unreachable for the enum's values. -/
def calculate_next_run (rt : RecurrenceType) (cron : Option String)
    (lastRun : Option Time) (now : Time) : Option Time :=
  if rt = .once then none
  else
    let base := lastRun.getD now
    match rt, cron with
    | .once, _ => none
    | .daily, _ => some (base + 86400)
    | .weekly, _ => some (base + 7 * 86400)
    | .monthly, _ => some (base + 30 * 86400)
    | .custom_cron, _ => some (base + 86400)

/-- Core of `JobService._run_job_execution` after the execution row is
loaded: mark RUNNING, run the sync, then either mark COMPLETED with
totals and advance the parent job's `last_run`/`next_run`, or — in the
`except` handler — mark FAILED with `error_message`/`error_details`
and leave the job row untouched. -/
def run_job_execution (job : ScheduledJob) (execu : JobExecution)
    (outcome : Except PyErr SyncTotals) (startTime endTime : Time) :
    ScheduledJob × JobExecution :=
  let execu := { execu with status := .running, started_at := some startTime }
  match outcome with
  | .ok totals =>
    let execu := { execu with
      status := .completed,
      completed_at := some endTime,
      duration_seconds := some (endTime - startTime),
      records_processed := totals.processed,
      records_inserted := totals.inserted,
      records_updated := totals.updated,
      records_skipped := totals.skipped }
    let job := { job with
      last_run := some endTime,
      next_run :=
        if job.enabled && job.recurrence_type ≠ .once then
          calculate_next_run job.recurrence_type job.cron_expression
            (some endTime) endTime
        else job.next_run }
    (job, execu)
  | .error e =>
    let execu := { execu with
      status := .failed,
      completed_at := some endTime,
      error_message := some e.msg,
      error_details := some e.etype,
      duration_seconds := some (endTime - startTime) }
    (job, execu)

/-! ## Manual-sync status register and lock
(`src/api/dependencies.py`, `src/api/routers/sync.py`)

Cooperative concurrency: each handler segment between `await` points
runs atomically on the event loop.  `trigger_sync` has no suspension
point between reading `sync_state["status"]` and writing it, so a
trigger is one atomic event; the terminal status writes of
`run_sync_operation` (success and failure both reset to `"idle"`) are
the finish events.  Neither `trigger_sync` nor `run_sync_operation`
ever touches the module-level `_sync_lock`, which is why the model's
`lockHeld` component is never written. -/

namespace SyncRegister

/-- The `sync_state["status"]` values. -/
inductive Status where
  | idle
  | running
  | testing
  | error
  deriving DecidableEq, Repr

/-- Process-wide state: the status register, whether `_sync_lock` is
held, and a ghost counter of manual syncs triggered but not yet
finished (for stating the exclusivity invariant). -/
structure St where
  status : Status
  lockHeld : Bool
  inFlight : Nat
  deriving DecidableEq, Repr

/-- Atomic events of the manual-sync lifecycle. -/
inductive Ev where
  | trigger
  | finish_success
  | finish_failure
  deriving DecidableEq, Repr

/-- Response of `POST /sync/trigger`. -/
inductive TriggerResp where
  | accepted
  | conflict409
  deriving DecidableEq, Repr

/-- Process start: `sync_state = {"status": "idle", ...}` and a freshly
created (unlocked) `asyncio.Lock()`. -/
def init : St := ⟨.idle, false, 0⟩

/-- One atomic event.  `trigger` is the check-then-set of
`trigger_sync` (reject when the register shows running, else set it
running); the finish events are `run_sync_operation`'s terminal writes. -/
def step : St → Ev → St
  | s, .trigger =>
    if s.status = .running then s
    else { s with status := .running, inFlight := s.inFlight + 1 }
  | s, .finish_success => { s with status := .idle, inFlight := s.inFlight - 1 }
  | s, .finish_failure => { s with status := .idle, inFlight := s.inFlight - 1 }

/-- The HTTP response `trigger_sync` gives in state `s`: 409 when the
register shows running, otherwise the 200 "running" acceptance.  The
`_sync_lock` plays no part in the decision. -/
def trigger_response (s : St) : TriggerResp :=
  if s.status = .running then .conflict409 else .accepted

/-- State after a sequence of atomic events from process start. -/
def exec_trace (tr : List Ev) : St := tr.foldl step init

end SyncRegister

/-! ## Supporting lemmas -/

/-- Rows created by `_create_person_record` carry none of the
update-indicator attributes, so `getattr` yields `None` for each. -/
theorem create_person_record_indicators (r : Rec) :
    ∀ fl ∈ DatabaseService.update_indicators,
      (DatabaseService.create_person_record r).get fl = Val.null := by
  intro fl hfl
  fin_cases hfl <;> rfl

/-- Model of `_needs_update` reports no change when every indicator field is
null on both the stored row and the incoming record. -/
theorem needs_update_false (existing r : Rec)
    (hE : ∀ fl ∈ DatabaseService.update_indicators, existing.get fl = Val.null)
    (hR : ∀ fl ∈ DatabaseService.update_indicators, r.get fl = Val.null) :
    DatabaseService.needs_update existing r = false := by
  unfold DatabaseService.needs_update
  rw [List.any_eq_false]
  intro fl hfl
  simp [hE fl hfl, hR fl hfl, pyEq]

/-- A record sanitized by `sanitize_vehicle_record` never carries the
`crash_unit_id` key that `insert_vehicle_records` looks up. -/
theorem sanitize_vehicle_no_crash_unit_id (r : Rec) :
    (DataSanitizer.sanitize_vehicle_record r).get "crash_unit_id" = Val.null := rfl

/-- A sanitized vehicle record always takes the skip branch of the
vehicle upsert loop. -/
theorem insert_vehicle_step_sanitized (store : List Rec) (c : DatabaseService.Counts)
    (r : Rec) :
    DatabaseService.insert_vehicle_step (store, c) (DataSanitizer.sanitize_vehicle_record r)
      = (store, { c with skipped := c.skipped + 1 }) := by
  simp [DatabaseService.insert_vehicle_step, sanitize_vehicle_no_crash_unit_id, Val.truthy]

/-- Folding the vehicle upsert loop over sanitized records only
accumulates skips. -/
theorem insert_vehicle_records_aux (raws : List Rec) :
    ∀ (store : List Rec) (c : DatabaseService.Counts),
      (raws.map DataSanitizer.sanitize_vehicle_record).foldl
          DatabaseService.insert_vehicle_step (store, c)
        = (store, { c with skipped := c.skipped + raws.length }) := by
  induction raws with
  | nil =>
    intro store c
    cases c
    simp
  | cons r rest ih =>
    intro store c
    cases c with
    | mk i u s =>
      simp only [List.map_cons, List.foldl_cons, insert_vehicle_step_sanitized, ih,
        List.length_cons]
      have : s + 1 + rest.length = s + (rest.length + 1) := by omega
      rw [this]

/-! ## Claim theorems -/

/-- C7: a failed job execution ends FAILED with a non-null
`error_message` and leaves the parent job (its `next_run` and
`last_run` included) untouched; only a successful completion sets
`last_run`. -/
theorem failed_execution_preserves_schedule (job : ScheduledJob) (execu : JobExecution)
    (err : PyErr) (totals : SyncTotals) (t0 t1 : Time) :
    (run_job_execution job execu (.error err) t0 t1).1 = job ∧
    (run_job_execution job execu (.error err) t0 t1).2.status = .failed ∧
    (run_job_execution job execu (.error err) t0 t1).2.error_message = some err.msg ∧
    (run_job_execution job execu (.ok totals) t0 t1).1.last_run = some t1 ∧
    (run_job_execution job execu (.ok totals) t0 t1).2.status = .completed :=
  ⟨rfl, rfl, rfl, rfl, rfl⟩

/-- C6: the production `SODAClient` defines no `iter_batches`
attribute, so every orchestrated sync against it fails the
`hasattr` test and takes the eager fetch-all fallback branch. -/
theorem production_sync_takes_fallback (env : FetchEnv) (persist : SyncService.Persist)
    (endpoint : String) (batchSize : Nat) :
    SyncService.has_iter_batches (soda_client env) = false ∧
    SyncService.sync_single_endpoint (soda_client env) persist endpoint batchSize
      = SyncService.fallback_sync_endpoint (soda_client env) persist endpoint batchSize :=
  ⟨rfl, rfl⟩

/-- C2: a record whose natural-key component is null or missing is
neither inserted nor updated; the store is unchanged and exactly the
skipped counter is incremented by one, for each of the four entity
kinds. -/
theorem upsert_skips_missing_natural_key (store : List Rec) (c : DatabaseService.Counts)
    (r : Rec) :
    ((r.get "crash_record_id").truthy = false →
        DatabaseService.insert_crash_step (store, c) r
          = (store, { c with skipped := c.skipped + 1 })) ∧
    ((r.get "crash_record_id").truthy = false ∨ (r.get "person_id").truthy = false →
        DatabaseService.insert_person_step (store, c) r
          = (store, { c with skipped := c.skipped + 1 })) ∧
    ((r.get "crash_unit_id").truthy = false →
        DatabaseService.insert_vehicle_step (store, c) r
          = (store, { c with skipped := c.skipped + 1 })) ∧
    ((r.get "person_id").truthy = false →
        DatabaseService.insert_fatality_step (store, c) r
          = (store, { c with skipped := c.skipped + 1 })) := by
  refine ⟨fun h => ?_, fun h => ?_, fun h => ?_, fun h => ?_⟩
  · simp [DatabaseService.insert_crash_step, h]
  · rcases h with h | h <;> simp [DatabaseService.insert_person_step, h]
  · simp [DatabaseService.insert_vehicle_step, h]
  · simp [DatabaseService.insert_fatality_step, h]

/-- C2 witness: the empty record (every key component missing) is
skipped by all four upsert loops. -/
theorem upsert_skips_missing_natural_key_witness :
    DatabaseService.insert_crash_step ([], ⟨0, 0, 0⟩) [] = ([], ⟨0, 0, 1⟩) ∧
    DatabaseService.insert_person_step ([], ⟨0, 0, 0⟩) [] = ([], ⟨0, 0, 1⟩) ∧
    DatabaseService.insert_vehicle_step ([], ⟨0, 0, 0⟩) [] = ([], ⟨0, 0, 1⟩) ∧
    DatabaseService.insert_fatality_step ([], ⟨0, 0, 0⟩) [] = ([], ⟨0, 0, 1⟩) := by
  have h := upsert_skips_missing_natural_key [] ⟨0, 0, 0⟩ []
  exact ⟨h.1 rfl, h.2.1 (Or.inl rfl), h.2.2.1 rfl, h.2.2.2 rfl⟩

/-- Person record used to refute the last-write-wins upsert claim. -/
def c1_record : Rec := [("crash_record_id", Val.s "C1"), ("person_id", Val.s "P1")]

/-- C1 counterexample: re-running the person upsert with the same
record reports `updated = 0, skipped = 1`, not `updated = 1`,
because `_needs_update` finds no changed indicator field. -/
theorem upsert_rerun_counterexample :
    (DatabaseService.insert_person_records
        (DatabaseService.insert_person_records [] [c1_record]).1 [c1_record]).2
      = ⟨0, 0, 1⟩ := by
  rfl

/-- C1 amended: the upsert is conditional, not unconditional
last-write-wins.  For a person record whose key components are
present and whose update-indicator fields are absent or null, the
first run inserts the row and a re-run with the unchanged record
reports `inserted = 0, updated = 0, skipped = 1`, leaving the stored
row identical to a single run. -/
theorem upsert_rerun_conditional (r : Rec)
    (h1 : (r.get "crash_record_id").truthy = true)
    (h2 : (r.get "person_id").truthy = true)
    (hInd : ∀ fl ∈ DatabaseService.update_indicators, r.get fl = Val.null) :
    DatabaseService.insert_person_records [] [r]
      = ([DatabaseService.create_person_record r], ⟨1, 0, 0⟩) ∧
    DatabaseService.insert_person_records [DatabaseService.create_person_record r] [r]
      = ([DatabaseService.create_person_record r], ⟨0, 0, 1⟩) := by
  have hcid : (DatabaseService.create_person_record r).get "crash_record_id"
      = r.get "crash_record_id" := rfl
  have hpid : (DatabaseService.create_person_record r).get "person_id"
      = r.get "person_id" := rfl
  have hnu : DatabaseService.needs_update (DatabaseService.create_person_record r) r = false :=
    needs_update_false _ _ (create_person_record_indicators r) hInd
  constructor
  · simp [DatabaseService.insert_person_records, DatabaseService.insert_person_step, h1, h2]
  · simp [DatabaseService.insert_person_records, DatabaseService.insert_person_step,
      h1, h2, List.find?, hcid, hpid, pyEq_refl, hnu]

/-- C1 amended witness: the concrete record with both key components
and no indicator fields. -/
theorem upsert_rerun_conditional_witness :
    DatabaseService.insert_person_records [] [c1_record]
      = ([DatabaseService.create_person_record c1_record], ⟨1, 0, 0⟩) ∧
    DatabaseService.insert_person_records
        [DatabaseService.create_person_record c1_record] [c1_record]
      = ([DatabaseService.create_person_record c1_record], ⟨0, 0, 1⟩) :=
  upsert_rerun_conditional c1_record rfl rfl (by decide)

/-- C10: the vehicle sanitizer never emits `crash_unit_id`, so the
vehicle upsert skips every sanitized record: nothing is inserted or
updated and the store is unchanged. -/
theorem vehicle_sanitizer_never_upserts :
    (∀ r : Rec, (DataSanitizer.sanitize_vehicle_record r).get "crash_unit_id" = Val.null) ∧
    ∀ (store : List Rec) (raws : List Rec),
      DatabaseService.insert_vehicle_records store
          (raws.map DataSanitizer.sanitize_vehicle_record)
        = (store, ⟨0, 0, raws.length⟩) := by
  refine ⟨fun r => sanitize_vehicle_no_crash_unit_id r, fun store raws => ?_⟩
  have h := insert_vehicle_records_aux raws store ⟨0, 0, 0⟩
  simpa [DatabaseService.insert_vehicle_records] using h

/-- Crash record with an in-bounds latitude (209/5 = 41.8) and an
out-of-bounds longitude (0). -/
def c5_record : Rec :=
  [("crash_record_id", Val.s "X"), ("latitude", Val.f (Rat.mk' 209 5)),
   ("longitude", Val.f 0)]

/-- C5 counterexample: when only the longitude is out of bounds,
sanitization nulls the longitude but keeps the in-bounds latitude —
the pair does not become jointly absent as the claim states. -/
theorem coordinate_pair_counterexample :
    (DataSanitizer.sanitize_crash_record c5_record).get "longitude" = Val.null ∧
    (DataSanitizer.sanitize_crash_record c5_record).get "latitude"
      = Val.f (Rat.mk' 209 5) ∧
    Val.f (Rat.mk' 209 5) ≠ Val.null := by
  refine ⟨by decide, by decide, by decide⟩

/-- C5 amended: each coordinate is validated independently and
without raising: a parsed coordinate outside its own bound becomes
null, and a parsed coordinate inside its bound is kept, regardless of
the other coordinate. -/
theorem coordinate_bounds_per_coordinate (r : Rec) (q : Rat) :
    (DataSanitizer.clean_float (r.get "latitude") = some q →
      ¬(validation_settings.min_latitude ≤ q ∧ q ≤ validation_settings.max_latitude) →
      (DataSanitizer.sanitize_crash_record r).get "latitude" = Val.null) ∧
    (DataSanitizer.clean_float (r.get "latitude") = some q →
      (validation_settings.min_latitude ≤ q ∧ q ≤ validation_settings.max_latitude) →
      (DataSanitizer.sanitize_crash_record r).get "latitude" = Val.f q) ∧
    (DataSanitizer.clean_float (r.get "longitude") = some q →
      ¬(validation_settings.min_longitude ≤ q ∧ q ≤ validation_settings.max_longitude) →
      (DataSanitizer.sanitize_crash_record r).get "longitude" = Val.null) ∧
    (DataSanitizer.clean_float (r.get "longitude") = some q →
      (validation_settings.min_longitude ≤ q ∧ q ≤ validation_settings.max_longitude) →
      (DataSanitizer.sanitize_crash_record r).get "longitude" = Val.f q) := by
  have hlat : (DataSanitizer.sanitize_crash_record r).get "latitude"
      = Val.ofFloat?
          (DataSanitizer.clean_coordinate validation_settings (r.get "latitude") .latitude) :=
    rfl
  have hlng : (DataSanitizer.sanitize_crash_record r).get "longitude"
      = Val.ofFloat?
          (DataSanitizer.clean_coordinate validation_settings (r.get "longitude") .longitude) :=
    rfl
  refine ⟨fun h hb => ?_, fun h hb => ?_, fun h hb => ?_, fun h hb => ?_⟩ <;>
    simp [hlat, hlng, DataSanitizer.clean_coordinate, h, hb, Val.ofFloat?]

/-- C5 amended witness: the mixed in/out-of-bounds pair. -/
theorem coordinate_bounds_per_coordinate_witness :
    (DataSanitizer.sanitize_crash_record c5_record).get "latitude"
      = Val.f (Rat.mk' 209 5) ∧
    (DataSanitizer.sanitize_crash_record c5_record).get "longitude" = Val.null :=
  ⟨(coordinate_bounds_per_coordinate c5_record (Rat.mk' 209 5)).2.1
      (by decide) (by decide),
   (coordinate_bounds_per_coordinate c5_record 0).2.2.1 (by decide) (by decide)⟩

/-! Deduplication lemmas (`DataSanitizer.remove_duplicates`). -/

/-- A list whose members all have truthy keys, pairwise distinct under
Python equality and none already seen, passes through the dedup loop
unchanged with a zero drop count. -/
theorem remove_duplicates_go_of_clean (key : String) :
    ∀ (l : List Rec) (seen : List Val),
      (∀ r ∈ l, (r.get key).truthy = true) →
      l.Pairwise (fun a b => pyEq (a.get key) (b.get key) = false) →
      (∀ r ∈ l, seen.any (fun e => pyEq e (r.get key)) = false) →
      DataSanitizer.remove_duplicates_go key seen l = (l, 0) := by
  intro l
  induction l with
  | nil => intro seen _ _ _; rfl
  | cons r rest ih =>
    intro seen hT hP hS
    have hr : (r.get key).truthy = true := hT r (List.mem_cons_self r rest)
    have hs : seen.any (fun e => pyEq e (r.get key)) = false :=
      hS r (List.mem_cons_self r rest)
    obtain ⟨hPhead, hPtail⟩ := List.pairwise_cons.mp hP
    have htail : DataSanitizer.remove_duplicates_go key (r.get key :: seen) rest
        = (rest, 0) := by
      refine ih (r.get key :: seen) (fun x hx => hT x (List.mem_cons_of_mem r hx)) hPtail ?_
      intro x hx
      have h1 : pyEq (r.get key) (x.get key) = false := hPhead x hx
      have h2 : seen.any (fun e => pyEq e (x.get key)) = false :=
        hS x (List.mem_cons_of_mem r hx)
      simp [List.any_cons, h1, h2]
    simp [DataSanitizer.remove_duplicates_go, hr, hs, htail]

/-- Every record kept by the dedup loop has a truthy key, the kept
keys are pairwise distinct under Python equality, and none of them
was in the incoming seen set. -/
theorem remove_duplicates_go_output_clean (key : String) :
    ∀ (l : List Rec) (seen : List Val),
      (∀ r ∈ (DataSanitizer.remove_duplicates_go key seen l).1, (r.get key).truthy = true) ∧
      (DataSanitizer.remove_duplicates_go key seen l).1.Pairwise
        (fun a b => pyEq (a.get key) (b.get key) = false) ∧
      (∀ r ∈ (DataSanitizer.remove_duplicates_go key seen l).1,
        seen.any (fun e => pyEq e (r.get key)) = false) := by
  intro l
  induction l with
  | nil => intro seen; refine ⟨?_, ?_, ?_⟩ <;> simp [DataSanitizer.remove_duplicates_go]
  | cons r rest ih =>
    intro seen
    by_cases hc :
        ((r.get key).truthy && !(seen.any (fun e => pyEq e (r.get key)))) = true
    · have hgo : DataSanitizer.remove_duplicates_go key seen (r :: rest)
          = (r :: (DataSanitizer.remove_duplicates_go key (r.get key :: seen) rest).1,
             (DataSanitizer.remove_duplicates_go key (r.get key :: seen) rest).2) := by
        simp only [DataSanitizer.remove_duplicates_go]
        rw [if_pos hc]
      obtain ⟨ihT, ihP, ihS⟩ := ih (r.get key :: seen)
      obtain ⟨hctruthy, hcseen⟩ : (r.get key).truthy = true
          ∧ seen.any (fun e => pyEq e (r.get key)) = false := by
        simpa using hc
      rw [hgo]
      refine ⟨?_, ?_, ?_⟩
      · intro x hx
        rcases List.mem_cons.mp hx with rfl | hx
        · exact hctruthy
        · exact ihT x hx
      · rw [List.pairwise_cons]
        refine ⟨fun b hb => ?_, ihP⟩
        have := ihS b hb
        simp only [List.any_cons, Bool.or_eq_false_iff] at this
        exact this.1
      · intro x hx
        rcases List.mem_cons.mp hx with rfl | hx
        · simpa using hcseen
        · have := ihS x hx
          simp only [List.any_cons, Bool.or_eq_false_iff] at this
          exact this.2
    · have hgo : DataSanitizer.remove_duplicates_go key seen (r :: rest)
          = ((DataSanitizer.remove_duplicates_go key seen rest).1,
             (DataSanitizer.remove_duplicates_go key seen rest).2 + 1) := by
        simp only [DataSanitizer.remove_duplicates_go]
        rw [if_neg hc]
      obtain ⟨ihT, ihP, ihS⟩ := ih seen
      rw [hgo]
      exact ⟨ihT, ihP, ihS⟩

/-- The dedup loop keeps at most as many records as it is given and
its drop count is exactly the number of records it did not keep. -/
theorem remove_duplicates_go_count (key : String) :
    ∀ (l : List Rec) (seen : List Val),
      (DataSanitizer.remove_duplicates_go key seen l).1.length ≤ l.length ∧
      (DataSanitizer.remove_duplicates_go key seen l).2
        = l.length - (DataSanitizer.remove_duplicates_go key seen l).1.length := by
  intro l
  induction l with
  | nil => intro seen; simp [DataSanitizer.remove_duplicates_go]
  | cons r rest ih =>
    intro seen
    by_cases hc :
        ((r.get key).truthy && !(seen.any (fun e => pyEq e (r.get key)))) = true
    · have hgo : DataSanitizer.remove_duplicates_go key seen (r :: rest)
          = (r :: (DataSanitizer.remove_duplicates_go key (r.get key :: seen) rest).1,
             (DataSanitizer.remove_duplicates_go key (r.get key :: seen) rest).2) := by
        simp only [DataSanitizer.remove_duplicates_go]
        rw [if_pos hc]
      obtain ⟨ih1, ih2⟩ := ih (r.get key :: seen)
      rw [hgo]
      constructor
      · simpa using Nat.succ_le_succ ih1
      · simp only [List.length_cons]
        omega
    · have hgo : DataSanitizer.remove_duplicates_go key seen (r :: rest)
          = ((DataSanitizer.remove_duplicates_go key seen rest).1,
             (DataSanitizer.remove_duplicates_go key seen rest).2 + 1) := by
        simp only [DataSanitizer.remove_duplicates_go]
        rw [if_neg hc]
      obtain ⟨ih1, ih2⟩ := ih seen
      rw [hgo]
      constructor
      · simp only [List.length_cons]
        omega
      · simp only [List.length_cons]
        omega

/-- The first record carrying a given truthy key value survives the
dedup loop wherever it sits, provided its key is not in the seen set
and no earlier record carries a Python-equal key. -/
theorem remove_duplicates_go_mem_first (key : String) (r : Rec) (l2 : List Rec)
    (htruthy : (r.get key).truthy = true) :
    ∀ (l1 : List Rec) (seen : List Val),
      seen.any (fun e => pyEq e (r.get key)) = false →
      (∀ r' ∈ l1, pyEq (r'.get key) (r.get key) = false) →
      r ∈ (DataSanitizer.remove_duplicates_go key seen (l1 ++ r :: l2)).1 := by
  intro l1
  induction l1 with
  | nil =>
    intro seen hseen _
    have hc : ((r.get key).truthy && !(seen.any (fun e => pyEq e (r.get key)))) = true := by
      rw [htruthy, hseen]
      rfl
    have hgo : DataSanitizer.remove_duplicates_go key seen ([] ++ r :: l2)
        = (r :: (DataSanitizer.remove_duplicates_go key (r.get key :: seen) l2).1,
           (DataSanitizer.remove_duplicates_go key (r.get key :: seen) l2).2) := by
      simp only [List.nil_append, DataSanitizer.remove_duplicates_go]
      rw [if_pos hc]
    rw [hgo]
    exact List.mem_cons_self _ _
  | cons r' rest ih =>
    intro seen hseen hfirst
    have hne : pyEq (r'.get key) (r.get key) = false :=
      hfirst r' (List.mem_cons_self r' rest)
    have hrest : ∀ x ∈ rest, pyEq (x.get key) (r.get key) = false :=
      fun x hx => hfirst x (List.mem_cons_of_mem r' hx)
    by_cases hc :
        ((r'.get key).truthy && !(seen.any (fun e => pyEq e (r'.get key)))) = true
    · have hgo : DataSanitizer.remove_duplicates_go key seen ((r' :: rest) ++ r :: l2)
          = (r' :: (DataSanitizer.remove_duplicates_go key (r'.get key :: seen)
                (rest ++ r :: l2)).1,
             (DataSanitizer.remove_duplicates_go key (r'.get key :: seen)
                (rest ++ r :: l2)).2) := by
        simp only [List.cons_append, DataSanitizer.remove_duplicates_go]
        rw [if_pos hc]
        rfl
      rw [hgo]
      refine List.mem_cons_of_mem r' (ih (r'.get key :: seen) ?_ hrest)
      simp [List.any_cons, hne, hseen]
    · have hgo : DataSanitizer.remove_duplicates_go key seen ((r' :: rest) ++ r :: l2)
          = ((DataSanitizer.remove_duplicates_go key seen (rest ++ r :: l2)).1,
             (DataSanitizer.remove_duplicates_go key seen (rest ++ r :: l2)).2 + 1) := by
        simp only [List.cons_append, DataSanitizer.remove_duplicates_go]
        rw [if_neg hc]
        rfl
      rw [hgo]
      exact ih seen hseen hrest

/-- C8 counterexample: a single record whose key is null is dropped —
its first occurrence is not preserved — and the reported dropped
count is 1 although the list contains no duplicate. -/
theorem remove_duplicates_counterexample :
    DataSanitizer.remove_duplicates [[("person_id", Val.null)]] "person_id" = ([], 1) :=
  rfl

/-- C8 amended: `remove_duplicates` is idempotent (a second pass keeps
everything and drops zero), it preserves the first-seen record per
truthy key value, and its reported count is the number of dropped
records — true duplicates together with records whose key is falsy or
missing. -/
theorem remove_duplicates_laws :
    (∀ (records : List Rec) (key : String),
        DataSanitizer.remove_duplicates
            (DataSanitizer.remove_duplicates records key).1 key
          = ((DataSanitizer.remove_duplicates records key).1, 0)) ∧
    (∀ (key : String) (l1 l2 : List Rec) (r : Rec),
        (r.get key).truthy = true →
        (∀ r' ∈ l1, pyEq (r'.get key) (r.get key) = false) →
        r ∈ (DataSanitizer.remove_duplicates (l1 ++ r :: l2) key).1) ∧
    (∀ (records : List Rec) (key : String),
        (DataSanitizer.remove_duplicates records key).2
          = records.length - (DataSanitizer.remove_duplicates records key).1.length) := by
  refine ⟨fun records key => ?_, fun key l1 l2 r h1 h2 => ?_, fun records key => ?_⟩
  · obtain ⟨hT, hP, _⟩ := remove_duplicates_go_output_clean key records []
    exact remove_duplicates_go_of_clean key _ [] hT hP (fun x _ => rfl)
  · exact remove_duplicates_go_mem_first key r l2 h1 l1 [] rfl h2
  · exact (remove_duplicates_go_count key records []).2

/-- C8 amended witness: a concrete first-seen record with a truthy key
survives, and re-deduplicating is a fixed point. -/
theorem remove_duplicates_laws_witness :
    [("person_id", Val.s "P1")]
        ∈ (DataSanitizer.remove_duplicates [[("person_id", Val.s "P1")]] "person_id").1 ∧
    DataSanitizer.remove_duplicates
        (DataSanitizer.remove_duplicates [[("person_id", Val.s "P1")]] "person_id").1
        "person_id"
      = ((DataSanitizer.remove_duplicates [[("person_id", Val.s "P1")]] "person_id").1, 0) :=
  ⟨remove_duplicates_laws.2.1 "person_id" [] [] [("person_id", Val.s "P1")] rfl
      (fun r' h => absurd h (List.not_mem_nil r')),
   remove_duplicates_laws.1 [[("person_id", Val.s "P1")]] "person_id"⟩

/-! Exception propagation through `Except` binds. -/

/-- Binding after a raised exception re-raises it. -/
theorem except_bind_error {α β : Type} (e : PyErr) (f : α → Except PyErr β) :
    (Except.error e >>= f) = Except.error e := rfl

/-- Binding after a normal return continues. -/
theorem except_bind_ok {α β : Type} (a : α) (f : α → Except PyErr β) :
    (Except.ok a >>= f) = f a := rfl

/-- Every record of a successfully fetched batch appears in the
result of the fetch-all loop, whatever happened to other batches. -/
theorem fetch_loop_mem (fetch : Nat → Except String (List Rec)) :
    ∀ (n j : Nat) (b : List Rec) (r : Rec), j < n → fetch j = .ok b → r ∈ b →
      r ∈ fetch_loop fetch n := by
  intro n
  induction n with
  | zero => intro j b r h _ _; exact absurd h (Nat.not_lt_zero j)
  | succ n ih =>
    intro j b r hj hf hr
    rcases Nat.lt_succ_iff_lt_or_eq.mp hj with h | rfl
    · exact List.mem_append_left _ (ih j b r h hf hr)
    · have : fetch_loop fetch (j + 1) = fetch_loop fetch j ++ b := by
        simp [fetch_loop, hf]
      rw [this]
      exact List.mem_append_right _ hr

/-- With no rows to fetch there are no batches. -/
theorem num_batches_zero (batchSize : Nat) : num_batches 0 batchSize = 0 := by
  cases batchSize with
  | zero => rfl
  | succ m =>
    show (0 + (m + 1) - 1) / (m + 1) = 0
    apply Nat.div_eq_of_lt
    omega

/-- A one-record batch used by the propagation counterexamples. -/
def sample_record : Rec := [("crash_record_id", Val.s "X")]

/-- Remote environment whose first batch fetch raises and whose second
succeeds. -/
def failing_batch_env : FetchEnv :=
  ⟨2, fun n => if n = 0 then .error "boom" else .ok [sample_record]⟩

/-- Remote environment with a single successful batch. -/
def one_batch_env : FetchEnv := ⟨1, fun _ => .ok [sample_record]⟩

/-- An injected persistence double that always succeeds. -/
def ok_persist : SyncService.Persist := fun _ _ => .ok ⟨0, 0, 0⟩

/-- A persistence-layer failure. -/
def db_error : PyErr := ⟨"SQLAlchemyError", "db down"⟩

/-- An injected persistence double that always raises. -/
def err_persist : SyncService.Persist := fun _ _ => .error db_error

/-- C3 counterexample: a fetch exception in batch 0 is caught and
swallowed by `fetch_all_records`, the later batch is still fetched,
and the surrounding sync run completes normally instead of aborting. -/
theorem fetch_error_swallowed_counterexample :
    failing_batch_env.fetchBatch 0 = .error "boom" ∧
    fetch_all_records failing_batch_env 1 = [sample_record] ∧
    SyncService.sync (soda_client failing_batch_env) ok_persist 1 ["crashes"]
      = .ok [("crashes", ⟨"crashes", 0, 1, 0, 0, 0⟩)] :=
  ⟨rfl, rfl, rfl⟩

/-- C3 amended: an exception from the persistence layer propagates
out of `sync` immediately, aborting the remaining endpoints; but a
batch-level fetch error inside the client's `fetch_all_records` is
caught and the fetch continues with later batches, so client fetch
errors do not abort the run. -/
theorem sync_failure_semantics (client : Client) (persist : SyncService.Persist)
    (batchSize : Nat) :
    (∀ (pre : List String) (e : String) (post : List String) (err : PyErr),
        (∀ p ∈ pre, ∃ res,
            SyncService.sync_single_endpoint client persist p batchSize = .ok res) →
        SyncService.sync_single_endpoint client persist e batchSize = .error err →
        SyncService.sync client persist batchSize (pre ++ e :: post) = .error err) ∧
    (∀ (i j : Nat) (msg : String) (b : List Rec) (r : Rec),
        i < j → j < num_batches client.fetchEnv.totalCount batchSize →
        client.fetchEnv.fetchBatch i = .error msg →
        client.fetchEnv.fetchBatch j = .ok b → r ∈ b →
        r ∈ fetch_all_records client.fetchEnv batchSize) := by
  constructor
  · intro pre
    induction pre with
    | nil =>
      intro e post err _ hErr
      show SyncService.sync client persist batchSize (e :: post) = .error err
      simp only [SyncService.sync]
      rw [hErr, except_bind_error]
    | cons p pre' ih =>
      intro e post err hOk hErr
      obtain ⟨res, hres⟩ := hOk p (List.mem_cons_self p pre')
      have hrest := ih e post err (fun x hx => hOk x (List.mem_cons_of_mem p hx)) hErr
      show SyncService.sync client persist batchSize (p :: (pre' ++ e :: post))
          = .error err
      simp only [SyncService.sync]
      rw [hres, except_bind_ok, hrest, except_bind_error]
  · intro i j msg b r hij hj hferr hfok hr
    unfold fetch_all_records
    by_cases h0 : client.fetchEnv.totalCount = 0
    · rw [h0, num_batches_zero] at hj
      exact absurd hj (Nat.not_lt_zero j)
    · rw [if_neg h0]
      exact fetch_loop_mem _ _ j b r hj hfok hr

/-- C3 amended witness: a concrete persistence failure aborts the run
before the second endpoint, and a concrete fetched record survives an
earlier batch fetch error. -/
theorem sync_failure_semantics_witness :
    SyncService.sync (soda_client one_batch_env) err_persist 1 ["crashes", "people"]
      = .error db_error ∧
    sample_record ∈ fetch_all_records failing_batch_env 1 := by
  constructor
  · exact (sync_failure_semantics (soda_client one_batch_env) err_persist 1).1
      [] "crashes" ["people"] db_error
      (fun p hp => absurd hp (List.not_mem_nil p)) rfl
  · exact (sync_failure_semantics (soda_client failing_batch_env) ok_persist 1).2
      0 1 "boom" [sample_record] sample_record (by omega) (by decide) rfl rfl
      (List.mem_cons_self _ _)

/-- C9: with the default persistence service, every non-empty batch
for a known endpoint raises `AttributeError` on the missing
`upsert_*` method instead of upserting; through the orchestrator this
makes any production sync that fetched at least one crash record
fail. -/
theorem orchestrator_upsert_attribute_error (records : List Rec)
    (h : records ≠ []) :
    SyncService.persist_batch_default "crashes" records
      = .error (attribute_error "upsert_crash_records") ∧
    SyncService.persist_batch_default "people" records
      = .error (attribute_error "upsert_person_records") ∧
    SyncService.persist_batch_default "vehicles" records
      = .error (attribute_error "upsert_vehicle_records") ∧
    SyncService.persist_batch_default "fatalities" records
      = .error (attribute_error "upsert_fatality_records") ∧
    (∀ (env : FetchEnv) (batchSize : Nat),
        fetch_all_records env batchSize = records →
        SyncService.sync_single_endpoint (soda_client env)
            SyncService.persist_batch_default "crashes" batchSize
          = .error (attribute_error "upsert_crash_records")) := by
  obtain ⟨r, rest, rfl⟩ := List.exists_cons_of_ne_nil h
  refine ⟨rfl, rfl, rfl, rfl, ?_⟩
  intro env batchSize hrec
  have hfb : SyncService.sync_single_endpoint (soda_client env)
      SyncService.persist_batch_default "crashes" batchSize
      = SyncService.fallback_sync_endpoint (soda_client env)
          SyncService.persist_batch_default "crashes" batchSize := rfl
  have henv : (soda_client env).fetchEnv = env := rfl
  rw [hfb]
  unfold SyncService.fallback_sync_endpoint
  rw [henv, hrec]
  have hperr : SyncService.persist_batch_default "crashes"
      (SyncService.sanitize_batch "crashes" (r :: rest))
      = .error (attribute_error "upsert_crash_records") := rfl
  simp only [List.isEmpty_cons, Bool.false_eq_true, if_false, hperr, except_bind_error]

/-- C9 witness: the singleton batch, both directly against the
persistence dispatch and through a full orchestrated endpoint sync. -/
theorem orchestrator_upsert_attribute_error_witness :
    SyncService.persist_batch_default "crashes" [sample_record]
      = .error (attribute_error "upsert_crash_records") ∧
    SyncService.sync_single_endpoint (soda_client one_batch_env)
        SyncService.persist_batch_default "crashes" 1
      = .error (attribute_error "upsert_crash_records") := by
  have h := orchestrator_upsert_attribute_error [sample_record]
    (List.cons_ne_nil sample_record [])
  exact ⟨h.1, h.2.2.2.2 one_batch_env 1 rfl⟩

/-! Manual-sync register invariants. -/

/-- Invariant of the manual-sync register: at most one manual sync in
flight, none unless the register shows running, and the lock is never
held. -/
def SyncRegisterInv (s : SyncRegister.St) : Prop :=
  s.inFlight ≤ 1 ∧ (s.status ≠ .running → s.inFlight = 0) ∧ s.lockHeld = false

/-- Every atomic event preserves the register invariant. -/
theorem sync_register_inv_step (s : SyncRegister.St) (e : SyncRegister.Ev)
    (h : SyncRegisterInv s) : SyncRegisterInv (SyncRegister.step s e) := by
  obtain ⟨h1, h2, h3⟩ := h
  cases e
  case trigger =>
    by_cases hr : s.status = SyncRegister.Status.running
    · simpa [SyncRegister.step, hr] using ⟨h1, h2, h3⟩
    · have h0 : s.inFlight = 0 := h2 hr
      refine ⟨?_, ?_, ?_⟩ <;> simp [SyncRegister.step, hr, h0, h3]
  case finish_success =>
    refine ⟨?_, ?_, ?_⟩ <;> simp [SyncRegister.step, h3] <;> omega
  case finish_failure =>
    refine ⟨?_, ?_, ?_⟩ <;> simp [SyncRegister.step, h3] <;> omega

/-- The register invariant holds along every trace from a state
satisfying it. -/
theorem sync_register_inv_trace :
    ∀ (tr : List SyncRegister.Ev) (s : SyncRegister.St),
      SyncRegisterInv s → SyncRegisterInv (tr.foldl SyncRegister.step s) := by
  intro tr
  induction tr with
  | nil => intro s h; exact h
  | cons e rest ih => intro s h; exact ih _ (sync_register_inv_step s e h)

/-- C4 counterexample: immediately after an accepted manual trigger a
manual sync is in flight with the status register showing running,
yet the `asyncio` lock is not held — and a trigger arriving in a
state where only the lock is held is accepted, not rejected. -/
theorem manual_sync_lock_counterexample :
    (SyncRegister.exec_trace [.trigger]).status = .running ∧
    (SyncRegister.exec_trace [.trigger]).inFlight = 1 ∧
    (SyncRegister.exec_trace [.trigger]).lockHeld = false ∧
    SyncRegister.trigger_response ⟨.idle, true, 0⟩ = .accepted := by
  decide

/-- C4 amended: exclusion is enforced only by the status register:
at most one manual sync is ever in flight, the lock is never held at
all, and a trigger that arrives while the register shows running is
rejected with the 409 conflict and changes nothing. -/
theorem manual_sync_exclusion :
    (∀ tr : List SyncRegister.Ev, (SyncRegister.exec_trace tr).inFlight ≤ 1) ∧
    (∀ tr : List SyncRegister.Ev, (SyncRegister.exec_trace tr).lockHeld = false) ∧
    (∀ s : SyncRegister.St, s.status = .running →
        SyncRegister.trigger_response s = .conflict409 ∧
        SyncRegister.step s .trigger = s) := by
  have hinit : SyncRegisterInv SyncRegister.init :=
    ⟨Nat.zero_le 1, fun _ => rfl, rfl⟩
  refine ⟨fun tr => (sync_register_inv_trace tr _ hinit).1,
    fun tr => (sync_register_inv_trace tr _ hinit).2.2,
    fun s hs => ⟨?_, ?_⟩⟩
  · simp [SyncRegister.trigger_response, hs]
  · simp [SyncRegister.step, hs]

/-- C4 amended witness: a double trigger keeps at most one sync in
flight, and a concrete running state rejects a trigger with 409. -/
theorem manual_sync_exclusion_witness :
    (SyncRegister.exec_trace [.trigger, .trigger]).inFlight ≤ 1 ∧
    SyncRegister.trigger_response ⟨.running, false, 1⟩ = .conflict409 :=
  ⟨manual_sync_exclusion.1 [.trigger, .trigger],
   (manual_sync_exclusion.2.2 ⟨.running, false, 1⟩ rfl).1⟩

end ChicagoCrashes
